import Mathlib

/-!
Shallow embedding of `cmd/argo/commands/root.go` from the argo-workflows CLI:
the root command's persistent flags, its persistent pre-run hook (verbose
override of the log levels followed by the version-compatibility check), the
root command's own run body, and the `printVersionMismatchWarning` function.

External collaborators (the environment lookup, the API client factory, the
info-service client) are modelled as an explicit `World` of oracle results;
the checker is a pure function of that world, instrumented with counters for
factory invocations, version requests and version comparisons so that the
"zero network calls" claims are statable.
-/

/-- The default value a persistent flag is declared with, tagged by its Go
type (string / int / bool), mirroring `StringVar` / `IntVar` / `BoolVarP`. -/
inductive FlagDefault
  | str (s : String)
  | int (n : Int)
  | bool (b : Bool)
deriving DecidableEq, Repr

/-- A persistent flag declaration on the root command: long name, optional
one-letter shorthand, and the typed default value. -/
structure PersistentFlag where
  name : String
  shorthand : Option String
  defaultValue : FlagDefault
deriving DecidableEq, Repr

/-- The persistent flags declared on the root command, in source order
(root.go lines 137-139): `--loglevel` (string, default "info"),
`--gloglevel` (int, default 0), `-v`/`--verbose` (bool, default false). -/
def rootPersistentFlags : List PersistentFlag :=
  [ ⟨"loglevel", none, .str "info"⟩,
    ⟨"gloglevel", none, .int 0⟩,
    ⟨"verbose", some "v", .bool false⟩ ]

/-- The effects of a command body, as far as this fragment is concerned. -/
inductive CliAction
  | printHelp
  | networkCall
  | clusterCall
deriving DecidableEq, Repr

/-- The root command's own `Run` body (root.go lines 90-93): it calls
`cmd.HelpFunc()(cmd, args)` and nothing else. -/
def rootRunBody : List CliAction := [CliAction.printHelp]

/-- The global flag state after argument parsing, before the pre-run hook
runs: the closure variables `logLevel`, `glogLevel`, `verbose`. -/
structure FlagState where
  logLevel : String
  glogLevel : Int
  verbose : Bool
deriving DecidableEq, Repr

/-- The verbose override at the top of the persistent pre-run hook
(root.go lines 128-131): `if verbose { logLevel = "debug"; glogLevel = 6 }`. -/
def applyVerboseOverride (s : FlagState) : FlagState :=
  if s.verbose then { s with logLevel := "debug", glogLevel := 6 } else s

/-- Modelled from the spec: the version-info structure exposed by the local
build (`argo.GetVersion()`) and by the remote info service; only its `GitTag`
field is named by the spec (`versionInfo{GitTag: string}`), the remaining
fields of the external struct are opaque strings carried alongside it. -/
structure VersionInfo where
  version : String
  buildDate : String
  gitCommit : String
  gitTag : String
  gitTreeState : String
  goVersion : String
  compiler : String
  platform : String
deriving DecidableEq, Repr

/-- The oracle results of the external collaborators consumed by
`printVersionMismatchWarning`: the `os.LookupEnv("ARGO_SERVER")` result
(`none` = unset, `some s` = set to `s`, possibly empty), the result of
`apiClient.NewInfoServiceClient()`, and the result of the single
`GetVersion` request. -/
structure World where
  argoServer : Option String
  newInfoServiceClient : Except String Unit
  getVersion : Except String VersionInfo

/-- The compatibility outcome: skipped / check-failed / match / mismatch. -/
inductive Outcome
  | skipped
  | checkFailed
  | matched
  | mismatch
deriving DecidableEq, Repr

/-- The observable result of one run of the compatibility checker: the
warnings it logged (in order), its outcome, and instrumentation counters —
whether the API client factory was reached, how many version requests were
issued, and how many version comparisons were performed. -/
structure CheckResult where
  warnings : List String
  outcome : Outcome
  factoryInvoked : Bool
  versionRequests : Nat
  comparisons : Nat
deriving DecidableEq, Repr

/-- The warning logged when `NewInfoServiceClient` fails
(root.go line 154: `log.Warnf("Failed create service client: %v", err)`). -/
def clientErrWarning (e : String) : String :=
  "Failed create service client: " ++ e

/-- The warning logged when `GetVersion` fails (root.go line 160:
`log.Warnf("Failed to connect to Argo Server: %v", err)`). -/
def connectErrWarning (e : String) : String :=
  "Failed to connect to Argo Server: " ++ e

/-- The warning logged on a version mismatch (root.go line 164). -/
def mismatchWarning (localTag serverTag : String) : String :=
  "CLI version (" ++ localTag ++ ") does not match server version (" ++
    serverTag ++ "). This can lead to unexpected behavior."

/-- `printVersionMismatchWarning` (root.go lines 144-166) as a pure function
of the collaborator world and the local build's version. The Go function has
no return value and no abort: its embedding is total and its result carries
only logged warnings, the outcome, and the instrumentation counters. -/
def printVersionMismatchWarning (w : World) (localVersion : VersionInfo) :
    CheckResult :=
  match w.argoServer with
  | none => ⟨[], .skipped, false, 0, 0⟩
  | some _ =>
    match w.newInfoServiceClient with
    | .error err => ⟨[clientErrWarning err], .checkFailed, true, 0, 0⟩
    | .ok _ =>
      match w.getVersion with
      | .error err => ⟨[connectErrWarning err], .checkFailed, true, 1, 0⟩
      | .ok serverVersion =>
        if serverVersion.gitTag ≠ localVersion.gitTag then
          ⟨[mismatchWarning localVersion.gitTag serverVersion.gitTag],
            .mismatch, true, 1, 1⟩
        else
          ⟨[], .matched, true, 1, 1⟩

/-- What the persistent pre-run hook hands on: the effective log levels it
passes to `cli.SetLogLevel` / `cmdutil.SetGLogLevel`, and the checker run. -/
structure HookResult where
  effectiveLogLevel : String
  effectiveGLogLevel : Int
  check : CheckResult

/-- The persistent pre-run hook (root.go lines 127-135): apply the verbose
override, configure the loggers with the resulting levels, then run the
compatibility checker. Total: the hook cannot return an error (its Go type
`func(cmd, args)` has no error result). -/
def persistentPreRun (s : FlagState) (w : World) (localVersion : VersionInfo) :
    HookResult :=
  let s' := applyVerboseOverride s
  ⟨s'.logLevel, s'.glogLevel, printVersionMismatchWarning w localVersion⟩

/-- A sample world for witnesses: endpoint unset. -/
def worldUnset : World := ⟨none, Except.ok (), Except.error "unused"⟩

/-- A sample local version for witnesses. -/
def localV340 : VersionInfo :=
  ⟨"v3.4.0", "2023-01-01", "aaaa", "v3.4.0", "clean", "go1.19", "gc", "linux/amd64"⟩

/-- A sample remote version agreeing with `localV340` on `gitTag` only. -/
def remoteV340other : VersionInfo :=
  ⟨"other", "2024-02-02", "bbbb", "v3.4.0", "dirty", "go1.21", "gccgo", "darwin/arm64"⟩

/-- A sample remote version with a different tag. -/
def remoteV338 : VersionInfo :=
  ⟨"v3.3.8", "2022-06-06", "cccc", "v3.3.8", "clean", "go1.18", "gc", "linux/amd64"⟩

/-- C1: if the verbose flag is true when the persistent pre-run hook runs,
the hook forces the effective log level to "debug" and the effective glog
level to 6 before configuring the loggers, overriding any explicitly
supplied values; if verbose is false, the parsed values are used unchanged. -/
theorem verbose_forces_debug_levels (s : FlagState) (w : World) (v : VersionInfo) :
    (s.verbose = true →
      (persistentPreRun s w v).effectiveLogLevel = "debug" ∧
      (persistentPreRun s w v).effectiveGLogLevel = 6) ∧
    (s.verbose = false →
      (persistentPreRun s w v).effectiveLogLevel = s.logLevel ∧
      (persistentPreRun s w v).effectiveGLogLevel = s.glogLevel) := by
  constructor <;> intro h <;>
    simp [persistentPreRun, applyVerboseOverride, h]

/-- Witness for C1 at concrete inputs: verbose overrides explicit levels. -/
theorem verbose_forces_debug_levels_witness :
    (persistentPreRun ⟨"error", 3, true⟩ worldUnset localV340).effectiveLogLevel
      = "debug" ∧
    (persistentPreRun ⟨"error", 3, true⟩ worldUnset localV340).effectiveGLogLevel
      = 6 :=
  (verbose_forces_debug_levels ⟨"error", 3, true⟩ worldUnset localV340).1 rfl

/-- C2: when ARGO_SERVER is unset, the checker returns immediately with
outcome skipped: the client factory is never reached, zero version requests
are issued, and no warning is logged. -/
theorem unset_endpoint_skips (w : World) (v : VersionInfo)
    (h : w.argoServer = none) :
    printVersionMismatchWarning w v =
      ⟨[], Outcome.skipped, false, 0, 0⟩ := by
  simp [printVersionMismatchWarning, h]

/-- Witness for C2: a concrete world with the endpoint unset. -/
theorem unset_endpoint_skips_witness :
    printVersionMismatchWarning worldUnset localV340 =
      ⟨[], Outcome.skipped, false, 0, 0⟩ :=
  unset_endpoint_skips worldUnset localV340 rfl

/-- C3: when the endpoint is set but constructing the info-service client
fails with error `e`, the checker logs exactly one warning, that warning
contains `e`, no version request is issued, and the outcome is check-failed
(the function is total, so the pre-run hook completes normally). -/
theorem client_construction_failure_warns (w : World) (v : VersionInfo)
    (s e : String) (hs : w.argoServer = some s)
    (he : w.newInfoServiceClient = Except.error e) :
    (printVersionMismatchWarning w v).warnings = [clientErrWarning e] ∧
    (∃ p q, clientErrWarning e = p ++ e ++ q) ∧
    (printVersionMismatchWarning w v).versionRequests = 0 ∧
    (printVersionMismatchWarning w v).outcome = Outcome.checkFailed := by
  refine ⟨?_, ⟨"Failed create service client: ", "", by simp [clientErrWarning]⟩, ?_, ?_⟩ <;>
    simp [printVersionMismatchWarning, hs, he]

/-- Witness for C3 at a concrete world whose client construction fails. -/
theorem client_construction_failure_warns_witness :
    (printVersionMismatchWarning
        ⟨some "localhost:2746", Except.error "dial error", Except.ok remoteV338⟩
        localV340).warnings = [clientErrWarning "dial error"] ∧
    (∃ p q, clientErrWarning "dial error" = p ++ "dial error" ++ q) ∧
    (printVersionMismatchWarning
        ⟨some "localhost:2746", Except.error "dial error", Except.ok remoteV338⟩
        localV340).versionRequests = 0 ∧
    (printVersionMismatchWarning
        ⟨some "localhost:2746", Except.error "dial error", Except.ok remoteV338⟩
        localV340).outcome = Outcome.checkFailed :=
  client_construction_failure_warns
    ⟨some "localhost:2746", Except.error "dial error", Except.ok remoteV338⟩
    localV340 "localhost:2746" "dial error" rfl rfl

/-- C4: when the client is constructed but the single GetVersion request
fails with error `e`, the checker logs exactly one warning containing `e`,
performs no version comparison, and the outcome is check-failed. -/
theorem get_version_failure_warns (w : World) (v : VersionInfo)
    (s e : String) (hs : w.argoServer = some s)
    (hc : w.newInfoServiceClient = Except.ok ())
    (hg : w.getVersion = Except.error e) :
    (printVersionMismatchWarning w v).warnings = [connectErrWarning e] ∧
    (∃ p q, connectErrWarning e = p ++ e ++ q) ∧
    (printVersionMismatchWarning w v).comparisons = 0 ∧
    (printVersionMismatchWarning w v).outcome = Outcome.checkFailed := by
  refine ⟨?_, ⟨"Failed to connect to Argo Server: ", "", by simp [connectErrWarning]⟩, ?_, ?_⟩ <;>
    simp [printVersionMismatchWarning, hs, hc, hg]

/-- Witness for C4 at a concrete world whose GetVersion call fails. -/
theorem get_version_failure_warns_witness :
    (printVersionMismatchWarning
        ⟨some "localhost:2746", Except.ok (), Except.error "timeout"⟩
        localV340).warnings = [connectErrWarning "timeout"] ∧
    (∃ p q, connectErrWarning "timeout" = p ++ "timeout" ++ q) ∧
    (printVersionMismatchWarning
        ⟨some "localhost:2746", Except.ok (), Except.error "timeout"⟩
        localV340).comparisons = 0 ∧
    (printVersionMismatchWarning
        ⟨some "localhost:2746", Except.ok (), Except.error "timeout"⟩
        localV340).outcome = Outcome.checkFailed :=
  get_version_failure_warns
    ⟨some "localhost:2746", Except.ok (), Except.error "timeout"⟩
    localV340 "localhost:2746" "timeout" rfl rfl rfl

/-- C5: on a successful GetVersion response the checker compares the remote
identifier to the local one by exact string equality — equal tags produce no
output at all, different tags produce exactly one warning that contains both
the local and the remote identifiers. -/
theorem version_comparison_by_equality (w : World) (v remote : VersionInfo)
    (s : String) (hs : w.argoServer = some s)
    (hc : w.newInfoServiceClient = Except.ok ())
    (hg : w.getVersion = Except.ok remote) :
    (remote.gitTag = v.gitTag →
      (printVersionMismatchWarning w v).warnings = [] ∧
      (printVersionMismatchWarning w v).outcome = Outcome.matched) ∧
    (remote.gitTag ≠ v.gitTag →
      (printVersionMismatchWarning w v).warnings =
        [mismatchWarning v.gitTag remote.gitTag] ∧
      (∃ p q r, mismatchWarning v.gitTag remote.gitTag =
        p ++ v.gitTag ++ q ++ remote.gitTag ++ r) ∧
      (printVersionMismatchWarning w v).outcome = Outcome.mismatch) := by
  constructor
  · intro h
    constructor <;> simp [printVersionMismatchWarning, hs, hc, hg, h]
  · intro h
    refine ⟨?_,
      ⟨"CLI version (", ") does not match server version (",
        "). This can lead to unexpected behavior.", by simp [mismatchWarning]⟩, ?_⟩ <;>
      simp [printVersionMismatchWarning, hs, hc, hg, h]

/-- Witness for C5 at the spec's scenario: local tag "v3.4.0", remote tag
"v3.3.8" — one warning mentioning both. -/
theorem version_comparison_by_equality_witness :
    (printVersionMismatchWarning
        ⟨some "localhost:2746", Except.ok (), Except.ok remoteV338⟩
        localV340).warnings =
      [mismatchWarning localV340.gitTag remoteV338.gitTag] ∧
    (∃ p q r, mismatchWarning localV340.gitTag remoteV338.gitTag =
      p ++ localV340.gitTag ++ q ++ remoteV338.gitTag ++ r) ∧
    (printVersionMismatchWarning
        ⟨some "localhost:2746", Except.ok (), Except.ok remoteV338⟩
        localV340).outcome = Outcome.mismatch :=
  (version_comparison_by_equality
    ⟨some "localhost:2746", Except.ok (), Except.ok remoteV338⟩
    localV340 remoteV338 "localhost:2746" rfl rfl rfl).2 (by decide)

/-- C6: on every execution path of the checker (endpoint unset, client
construction failure, remote call failure, match, mismatch) the pre-run hook
completes with a total result — no error value exists to propagate and no
abort variant exists in the outcome type — and at most one compatibility
warning is emitted per invocation. -/
theorem checker_never_fatal (s : FlagState) (w : World) (v : VersionInfo) :
    (persistentPreRun s w v).check = printVersionMismatchWarning w v ∧
    (persistentPreRun s w v).check.warnings.length ≤ 1 ∧
    [Outcome.skipped, Outcome.checkFailed, Outcome.matched,
      Outcome.mismatch].contains (persistentPreRun s w v).check.outcome = true := by
  refine ⟨rfl, ?_, ?_⟩ <;>
    · show _
      unfold persistentPreRun printVersionMismatchWarning
      rcases w with ⟨a, c, g⟩
      cases a <;> cases c <;> cases g <;> simp <;> split <;> simp

/-- C7: the root command declares exactly three persistent flags, in source
order: --loglevel (string, default "info", no shorthand), --gloglevel (int,
default 0, no shorthand), and --verbose (bool, default false, shorthand v). -/
theorem root_declares_three_persistent_flags :
    rootPersistentFlags.length = 3 ∧
    rootPersistentFlags.get? 0 = some ⟨"loglevel", none, FlagDefault.str "info"⟩ ∧
    rootPersistentFlags.get? 1 = some ⟨"gloglevel", none, FlagDefault.int 0⟩ ∧
    rootPersistentFlags.get? 2 = some ⟨"verbose", some "v", FlagDefault.bool false⟩ := by
  refine ⟨rfl, rfl, rfl, rfl⟩

/-- C8: the root command's own Run body (invoked when no subcommand is
given) only prints help and performs neither a network nor a cluster action. -/
theorem root_run_body_prints_help_only :
    rootRunBody = [CliAction.printHelp] ∧
    rootRunBody.contains CliAction.networkCall = false ∧
    rootRunBody.contains CliAction.clusterCall = false := by
  refine ⟨rfl, rfl, rfl⟩

/-- C9: the applicability gate tests only the presence of ARGO_SERVER, not
its value: with ARGO_SERVER set to the empty string the checker proceeds to
client construction instead of terminating with outcome skipped. -/
theorem empty_endpoint_still_checks (w : World) (v : VersionInfo)
    (h : w.argoServer = some "") :
    (printVersionMismatchWarning w v).factoryInvoked = true ∧
    [Outcome.checkFailed, Outcome.matched, Outcome.mismatch].contains
      (printVersionMismatchWarning w v).outcome = true := by
  unfold printVersionMismatchWarning
  rw [h]
  rcases w with ⟨a, c, g⟩
  cases c <;> cases g <;> simp <;> split <;> simp

/-- Witness for C9: a concrete world with ARGO_SERVER set to "". -/
theorem empty_endpoint_still_checks_witness :
    (printVersionMismatchWarning
        ⟨some "", Except.ok (), Except.ok remoteV338⟩ localV340).factoryInvoked
      = true ∧
    [Outcome.checkFailed, Outcome.matched, Outcome.mismatch].contains
      (printVersionMismatchWarning
        ⟨some "", Except.ok (), Except.ok remoteV338⟩ localV340).outcome = true :=
  empty_endpoint_still_checks
    ⟨some "", Except.ok (), Except.ok remoteV338⟩ localV340 rfl

/-- C10: the comparison reads only the gitTag fields: whenever the remote
and local gitTag fields agree the outcome is matched and nothing is logged,
whatever the other fields of the two version structures hold. -/
theorem comparison_reads_only_gitTag (w : World) (v remote : VersionInfo)
    (s : String) (hs : w.argoServer = some s)
    (hc : w.newInfoServiceClient = Except.ok ())
    (hg : w.getVersion = Except.ok remote)
    (ht : remote.gitTag = v.gitTag) :
    (printVersionMismatchWarning w v).outcome = Outcome.matched ∧
    (printVersionMismatchWarning w v).warnings = [] := by
  constructor <;> simp [printVersionMismatchWarning, hs, hc, hg, ht]

/-- Witness for C10: local and remote differ in every field except gitTag,
and the outcome is still matched with no warning. -/
theorem comparison_reads_only_gitTag_witness :
    (printVersionMismatchWarning
        ⟨some "localhost:2746", Except.ok (), Except.ok remoteV340other⟩
        localV340).outcome = Outcome.matched ∧
    (printVersionMismatchWarning
        ⟨some "localhost:2746", Except.ok (), Except.ok remoteV340other⟩
        localV340).warnings = [] :=
  comparison_reads_only_gitTag
    ⟨some "localhost:2746", Except.ok (), Except.ok remoteV340other⟩
    localV340 remoteV340other "localhost:2746" rfl rfl rfl rfl
